import Mathlib

/-!
# Verification of the contact-submission pipeline

Shallow embedding of `src/app/api/contact/route.ts` — the `POST` handler of
the contact endpoint — together with proofs of the specified properties.

The handler is one linear procedure with four stages (field validation,
Turnstile bot verification, Discord webhook notification, confirmation
email), each downstream interaction modelled by an environment value that
records how the external world answers. Exceptions thrown by `await`ed
calls propagate to the single outer `try/catch`, which returns the generic
server-error response; this is modelled by explicit `threw` / failed-parse
constructors in the environment.
-/

namespace Funex

/-- The parsed JSON request body (`ContactFormData` in the source).
A string field holds `none` when the JSON key is absent (`undefined` after
destructuring); both an absent key and the empty string are falsy in the
validation check, and `phone`'s truthiness also gates the optional webhook
field. `privacyPolicy` is the boolean consent flag (an absent key behaves
like `false`). -/
structure ContactFormData where
  company : Option String
  name : Option String
  email : Option String
  phone : Option String
  message : Option String
  privacyPolicy : Bool
  turnstileToken : Option String
deriving DecidableEq

/-- JavaScript truthiness of an optional string value: `undefined` (absent)
and `""` are falsy, every other string is truthy. -/
def truthy : Option String → Bool
  | none => false
  | some s => !(s == "")

/-- The validation guard of the handler:
`!company || !name || !email || !message || !privacyPolicy || !turnstileToken`. -/
def missingRequired (b : ContactFormData) : Bool :=
  !truthy b.company || !truthy b.name || !truthy b.email || !truthy b.message
    || !b.privacyPolicy || !truthy b.turnstileToken

/-- The JSON body of the Turnstile verification response
(`TurnstileResponse` in the source): a boolean `success` flag and an
optional list of error codes (diagnostic only — the source merely logs
them). -/
structure TurnstileResponse where
  success : Bool
  errorCodes : Option (List String)
deriving DecidableEq

/-- Outcome of the `fetch` to the Turnstile verification endpoint.
`threw` models the `fetch` promise rejecting (network failure);
`responded status none` models a response whose `.json()` parse throws
(malformed body); `responded status (some td)` is a parsed body `td`
carried by an HTTP response with status code `status` (the source never
reads the status). -/
inductive TurnstileCall where
  | threw : TurnstileCall
  | responded : Nat → Option TurnstileResponse → TurnstileCall
deriving DecidableEq

/-- Outcome of the `fetch` to the Discord webhook.
`threw` models the `fetch` promise rejecting; `responded ok text` is a
response with `ok` flag `ok` whose `.text()` call (only made on the
failure branch) yields `some body`, or throws when `text = none`. -/
inductive WebhookCall where
  | threw : WebhookCall
  | responded : Bool → Option String → WebhookCall
deriving DecidableEq

/-- Process configuration and the behaviour of the three downstream
services for one request. `cfSecretKey` and `resendApiKey` are the
environment secrets (sent to the verification / email services, never
read into the response); `webhookUrl = none` models an unconfigured
`WEBHOOK_URL`; `emailError = some e` models `resend.emails.send`
rejecting with error `e` (caught and logged by the inner try/catch);
`now` is the ISO-8601 string `new Date().toISOString()` produces. -/
structure Env where
  cfSecretKey : Option String
  resendApiKey : Option String
  webhookUrl : Option String
  turnstile : TurnstileCall
  webhook : WebhookCall
  emailError : Option String
  now : String
deriving DecidableEq

/-- One `{name, value, inline}` field record of the Discord embed. -/
structure Field where
  name : String
  value : String
  inline : Bool
deriving DecidableEq

/-- The Discord embed object built by the handler (the single element of
the `embeds` array of `discordPayload`). The footer is its `text`. -/
structure Embed where
  title : String
  color : Nat
  fields : List Field
  timestamp : String
  footer : String
deriving DecidableEq

/-- The caller-visible HTTP response: JSON body `{message}` plus status. -/
structure Response where
  message : String
  status : Nat
deriving DecidableEq

/-- Marker for each outbound call the handler actually initiates. -/
inductive Call where
  | verification : Call
  | webhook : Call
  | email : Call
deriving DecidableEq

/-- Observable outcome of one handler run: the response returned to the
caller, the ordered list of outbound calls initiated, and the payload
posted to the webhook (when that call was made). -/
structure HandlerResult where
  response : Response
  calls : List Call
  webhookPayload : Option Embed
deriving DecidableEq

/-- `{ message: "必須項目をすべて入力してください" }`, status 400. -/
def missingFieldsResponse : Response := ⟨"必須項目をすべて入力してください", 400⟩

/-- `{ message: "ボット検証に失敗しました。もう一度お試しください。" }`, status 400. -/
def botFailedResponse : Response := ⟨"ボット検証に失敗しました。もう一度お試しください。", 400⟩

/-- `{ message: "サーバーエラーが発生しました" }`, status 500 — used both for an
unconfigured webhook URL and by the outer catch. -/
def serverErrorResponse : Response := ⟨"サーバーエラーが発生しました", 500⟩

/-- `{ message: "送信に失敗しました。もう一度お試しください。" }`, status 500. -/
def sendFailedResponse : Response := ⟨"送信に失敗しました。もう一度お試しください。", 500⟩

/-- `{ message: "送信が完了しました" }`, status 200. -/
def successResponse : Response := ⟨"送信が完了しました", 200⟩

/-- The Discord embed the handler builds (`discordPayload` in the source):
fixed title, color `0x0066cc`, the field list company / name / email /
phone-if-truthy / message with the source's `inline` flags, the current
timestamp and the fixed footer. -/
def discordPayload (b : ContactFormData) (now : String) : Embed :=
  ⟨"📧 新しいお問い合わせ", 0x0066cc,
    [⟨"会社名", b.company.getD "", true⟩,
     ⟨"氏名", b.name.getD "", true⟩,
     ⟨"メールアドレス", b.email.getD "", false⟩]
      ++ (if truthy b.phone then [⟨"電話番号", b.phone.getD "", false⟩] else [])
      ++ [⟨"お問い合わせ内容", b.message.getD "", false⟩],
    now, "株式会社ファンエクス"⟩

/-- The `POST` handler. `body = none` models `request.json()` throwing
(invalid JSON), which the outer catch turns into the generic server
error. Each stage short-circuits exactly as in the source; any thrown
awaited call (`turnstile = .threw`, a failed `.json()` parse, a thrown
webhook `fetch`, a thrown `.text()` on the webhook failure branch) lands
in the outer catch. A rejected email send is caught by the inner
try/catch (both of its branches return success). -/
def POST (body : Option ContactFormData) (env : Env) : HandlerResult :=
  match body with
  | none => ⟨serverErrorResponse, [], none⟩
  | some b =>
    if missingRequired b then
      ⟨missingFieldsResponse, [], none⟩
    else
      match env.turnstile with
      | .threw => ⟨serverErrorResponse, [.verification], none⟩
      | .responded _ none => ⟨serverErrorResponse, [.verification], none⟩
      | .responded _ (some td) =>
        if !td.success then
          ⟨botFailedResponse, [.verification], none⟩
        else
          match env.webhookUrl with
          | none => ⟨serverErrorResponse, [.verification], none⟩
          | some _ =>
            let payload := discordPayload b env.now
            match env.webhook with
            | .threw => ⟨serverErrorResponse, [.verification, .webhook], some payload⟩
            | .responded ok text =>
              if !ok then
                match text with
                | none => ⟨serverErrorResponse, [.verification, .webhook], some payload⟩
                | some _ => ⟨sendFailedResponse, [.verification, .webhook], some payload⟩
              else
                match env.emailError with
                | some _ => ⟨successResponse, [.verification, .webhook, .email], some payload⟩
                | none => ⟨successResponse, [.verification, .webhook, .email], some payload⟩

/-! ## Concrete sample inputs used by witnesses and counterexamples -/

/-- The example payload of the spec: phone omitted, consent given. -/
def exampleBody : ContactFormData :=
  ⟨some "Acme", some "田中太郎", some "t@example.com", none,
    some "お見積りをお願いします", true, some "tok123"⟩

/-- The example payload with a (truthy) phone supplied. -/
def exampleBodyWithPhone : ContactFormData :=
  ⟨some "Acme", some "田中太郎", some "t@example.com", some "03-1234-5678",
    some "お見積りをお願いします", true, some "tok123"⟩

/-- A Turnstile call that parsed successfully and reported `success: true`. -/
def okTurnstile : TurnstileCall := .responded 200 (some ⟨true, none⟩)

/-- An environment in which every downstream service succeeds. -/
def allOkEnv : Env :=
  ⟨some "cf-secret", some "resend-key", some "https://discord.example/wh",
    okTurnstile, .responded true none, none, "2026-10-11T00:00:00.000Z"⟩

/-- Like `allOkEnv` but `resend.emails.send` rejects. -/
def emailFailEnv : Env :=
  ⟨some "cf-secret", some "resend-key", some "https://discord.example/wh",
    okTurnstile, .responded true none, some "resend outage", "2026-10-11T00:00:00.000Z"⟩

/-- Like `allOkEnv` but the Turnstile `fetch` rejects (network failure). -/
def turnstileThrewEnv : Env :=
  ⟨some "cf-secret", some "resend-key", some "https://discord.example/wh",
    .threw, .responded true none, none, "2026-10-11T00:00:00.000Z"⟩

/-- Like `allOkEnv` but `WEBHOOK_URL` is unconfigured. -/
def noWebhookUrlEnv : Env :=
  ⟨some "cf-secret", some "resend-key", none,
    okTurnstile, .responded true none, none, "2026-10-11T00:00:00.000Z"⟩

/-- Like `allOkEnv` but Turnstile parsed to `success: false`. -/
def turnstileRejectEnv : Env :=
  ⟨some "cf-secret", some "resend-key", some "https://discord.example/wh",
    .responded 200 (some ⟨false, some ["invalid-input-response"]⟩),
    .responded true none, none, "2026-10-11T00:00:00.000Z"⟩

/-! ## Secret / diagnostic erasure

`scrub` erases from an environment everything the response is claimed to
be independent of: the two secrets, the webhook URL's value (its
configuredness is kept), the Turnstile error codes, the webhook failure
body's content, and the email error's content. Two environments with
equal scrubs differ only in secrets and diagnostic detail. -/

/-- Erase the diagnostic error codes from a Turnstile outcome, keeping
its control-flow shape (threw / unparseable / `success` flag) and status. -/
def scrubTurnstile : TurnstileCall → TurnstileCall
  | .threw => .threw
  | .responded s none => .responded s none
  | .responded s (some td) => .responded s (some ⟨td.success, none⟩)

/-- Erase the failure-body text from a webhook outcome, keeping its shape
(threw / `ok` flag / whether `.text()` itself throws). -/
def scrubWebhook : WebhookCall → WebhookCall
  | .threw => .threw
  | .responded ok none => .responded ok none
  | .responded ok (some _) => .responded ok (some "")

/-- Erase secrets and diagnostics from an environment. -/
def scrub (e : Env) : Env :=
  ⟨none, none, e.webhookUrl.map (fun _ => ""), scrubTurnstile e.turnstile,
    scrubWebhook e.webhook, e.emailError.map (fun _ => ""), e.now⟩

/-- Replace the HTTP status code carried by the Turnstile response (when
one was received) by `s`, leaving everything else unchanged. -/
def withTurnstileStatus (e : Env) (s : Nat) : Env :=
  ⟨e.cfSecretKey, e.resendApiKey, e.webhookUrl,
    match e.turnstile with
    | .threw => .threw
    | .responded _ p => .responded s p,
    e.webhook, e.emailError, e.now⟩

/-- All services succeed; secrets and diagnostics take one set of values. -/
def secretsEnvA : Env :=
  ⟨some "cf-secret-A", some "resend-key-A", some "https://a.example/wh",
    .responded 200 (some ⟨true, some ["diag-a"]⟩), .responded true (some "body-a"),
    some "err-a", "2026-10-11T00:00:00.000Z"⟩

/-- Same observable behaviour as `secretsEnvA`, but every secret and every
diagnostic detail differs (and one secret is absent). -/
def secretsEnvB : Env :=
  ⟨some "cf-secret-B", none, some "https://b.example/wh",
    .responded 200 (some ⟨true, none⟩), .responded true (some "body-b"),
    some "err-b", "2026-10-11T00:00:00.000Z"⟩

/-- The five constant response messages the handler can return. -/
def fixedMessages : List String :=
  ["必須項目をすべて入力してください",
   "ボット検証に失敗しました。もう一度お試しください。",
   "サーバーエラーが発生しました",
   "送信に失敗しました。もう一度お試しください。",
   "送信が完了しました"]

/-! ## General lemmas about the handler -/

/-- Erasing secrets and diagnostics from the environment does not change
any observable of the run: the handler never reads them into the result. -/
theorem POST_env_scrub (b : Option ContactFormData) (e : Env) :
    POST b (scrub e) = POST b e := by
  obtain ⟨cs, rk, wu, ts, wh, ee, n⟩ := e
  cases b with
  | none => rfl
  | some fb =>
    rcases ts with _ | ⟨s, _ | td⟩ <;>
      rcases wh with _ | ⟨ok, _ | t⟩ <;>
      rcases wu with _ | u <;>
      rcases ee with _ | err <;>
      rfl

/-- Every run's response message is one of the five fixed constants. -/
theorem POST_message_mem (b : Option ContactFormData) (e : Env) :
    (POST b e).response.message ∈ fixedMessages := by
  unfold POST
  repeat' split
  all_goals first
  | decide
  | (show serverErrorResponse.message ∈ fixedMessages; decide)
  | (show sendFailedResponse.message ∈ fixedMessages; decide)
  | (show successResponse.message ∈ fixedMessages; decide)

/-! ## Claim theorems -/

/-- C9: an unparseable request body (`request.json()` throws) yields the
generic server-error response with status 500 — not the 400
missing-fields response — and no outbound call is made. -/
theorem invalid_json_server_error (e : Env) :
    POST none e = ⟨serverErrorResponse, [], none⟩ ∧
    (POST none e).response ≠ missingFieldsResponse ∧
    (POST none e).response.status = 500 := by
  refine ⟨rfl, ?_, rfl⟩
  show serverErrorResponse ≠ missingFieldsResponse
  decide

/-- C2: if any required field (company, name, email, message,
privacyPolicy, turnstileToken) is missing or falsy, the handler returns
the 400 fill-in-all-required-fields response, makes zero outbound calls
and builds no webhook payload, whatever the environment. -/
theorem missing_field_rejected_no_calls (b : ContactFormData) (e : Env)
    (h : truthy b.company = false ∨ truthy b.name = false ∨
      truthy b.email = false ∨ truthy b.message = false ∨
      b.privacyPolicy = false ∨ truthy b.turnstileToken = false) :
    POST (some b) e = ⟨missingFieldsResponse, [], none⟩ := by
  have hm : missingRequired b = true := by
    unfold missingRequired
    rcases h with h | h | h | h | h | h <;> simp [h]
  simp [POST, hm]

/-- C2 witness: a payload with `company` absent is rejected with 400 and
no outbound call. -/
theorem missing_field_rejected_no_calls_witness :
    POST (some ⟨none, some "田中太郎", some "t@example.com", none,
      some "お見積りをお願いします", true, some "tok123"⟩) allOkEnv =
      ⟨missingFieldsResponse, [], none⟩ :=
  missing_field_rejected_no_calls _ allOkEnv (Or.inl rfl)

/-- C3: a payload passing field validation whose Turnstile verification
parses to `success: false` gets the 400 bot-verification-failed response,
and the only outbound call made is the verification call — no webhook, no
email, no payload built. -/
theorem verification_rejected_no_webhook (b : ContactFormData) (e : Env)
    (s : Nat) (td : TurnstileResponse)
    (hv : missingRequired b = false)
    (ht : e.turnstile = .responded s (some td))
    (hs : td.success = false) :
    POST (some b) e = ⟨botFailedResponse, [.verification], none⟩ := by
  simp [POST, hv, ht, hs]

/-- C3 witness: the example payload against a Turnstile rejection. -/
theorem verification_rejected_no_webhook_witness :
    POST (some exampleBody) turnstileRejectEnv =
      ⟨botFailedResponse, [.verification], none⟩ :=
  verification_rejected_no_webhook exampleBody turnstileRejectEnv 200
    ⟨false, some ["invalid-input-response"]⟩ (by decide) rfl rfl

/-- C1: on a valid payload with verification succeeding and webhook
delivery succeeding, a rejected email send leaves the outcome untouched:
the caller still gets the success response with status 200 (and the full
run result is the same as on any email outcome). -/
theorem email_failure_preserves_success (b : ContactFormData) (e : Env)
    (s : Nat) (td : TurnstileResponse) (u err : String) (t : Option String)
    (hv : missingRequired b = false)
    (ht : e.turnstile = .responded s (some td)) (hs : td.success = true)
    (hu : e.webhookUrl = some u) (hw : e.webhook = .responded true t)
    (he : e.emailError = some err) :
    (POST (some b) e).response = successResponse ∧
    (POST (some b) e).response.status = 200 ∧
    POST (some b) e =
      ⟨successResponse, [.verification, .webhook, .email],
        some (discordPayload b e.now)⟩ := by
  simp [POST, hv, ht, hs, hu, hw, he, successResponse]

/-- C1 witness: the example payload with every service fine except the
email send, which rejects; the caller still sees success / 200. -/
theorem email_failure_preserves_success_witness :
    (POST (some exampleBody) emailFailEnv).response = successResponse :=
  (email_failure_preserves_success exampleBody emailFailEnv 200 ⟨true, none⟩
    "https://discord.example/wh" "resend outage" none (by decide)
    rfl rfl rfl rfl rfl).1

/-- C4 counterexample: on a valid payload, a Turnstile verification call
whose `fetch` rejects (network failure) does NOT produce a bad-request
response — it propagates to the outer catch and yields the generic
server-error response with status 500, not 400. -/
theorem turnstile_threw_not_bad_request :
    (POST (some exampleBody) turnstileThrewEnv).response = serverErrorResponse ∧
    (POST (some exampleBody) turnstileThrewEnv).response.status ≠ 400 ∧
    missingRequired exampleBody = false := by
  decide

/-- C4 (amended): on a valid payload, only an explicit parsed
`success: false` yields the 400 bot-verification-failed response; a
network failure reaching the verification service or an unparseable
verification response propagates to the outer catch and yields the
generic 500 server-error response. In every non-success case, only the
verification call was made. -/
theorem turnstile_nonsuccess_outcomes (b : ContactFormData) (e : Env)
    (hv : missingRequired b = false) :
    (e.turnstile = .threw →
      POST (some b) e = ⟨serverErrorResponse, [.verification], none⟩) ∧
    (∀ s, e.turnstile = .responded s none →
      POST (some b) e = ⟨serverErrorResponse, [.verification], none⟩) ∧
    (∀ s td, e.turnstile = .responded s (some td) → td.success = false →
      POST (some b) e = ⟨botFailedResponse, [.verification], none⟩) := by
  refine ⟨fun ht => ?_, fun s ht => ?_, fun s td ht hs => ?_⟩ <;>
    simp [POST, hv, ht, *]

/-- C4 witness: the example payload with the verification `fetch`
rejecting yields the 500 server-error result. -/
theorem turnstile_nonsuccess_outcomes_witness :
    POST (some exampleBody) turnstileThrewEnv =
      ⟨serverErrorResponse, [.verification], none⟩ :=
  (turnstile_nonsuccess_outcomes exampleBody turnstileThrewEnv (by decide)).1 rfl

/-- C5: on a valid payload with successful verification, an unconfigured
webhook URL, or a webhook delivery that responds without `ok`, yields a
500 response and the email call is never made. -/
theorem webhook_failure_fatal_no_email (b : ContactFormData) (e : Env)
    (s : Nat) (td : TurnstileResponse)
    (hv : missingRequired b = false)
    (ht : e.turnstile = .responded s (some td)) (hs : td.success = true)
    (hw : e.webhookUrl = none ∨
      ∃ u t, e.webhookUrl = some u ∧ e.webhook = .responded false t) :
    (POST (some b) e).response.status = 500 ∧
    Call.email ∉ (POST (some b) e).calls := by
  rcases hw with hw | ⟨u, t, hu, hok⟩
  · simp [POST, hv, ht, hs, hw, serverErrorResponse]
  · rcases t with _ | body <;>
      simp [POST, hv, ht, hs, hu, hok, serverErrorResponse, sendFailedResponse]

/-- C5 witness: the example payload with `WEBHOOK_URL` unconfigured gets
status 500 and no email call. -/
theorem webhook_failure_fatal_no_email_witness :
    (POST (some exampleBody) noWebhookUrlEnv).response.status = 500 ∧
    Call.email ∉ (POST (some exampleBody) noWebhookUrlEnv).calls :=
  webhook_failure_fatal_no_email exampleBody noWebhookUrlEnv 200 ⟨true, none⟩
    (by decide) rfl rfl (Or.inl rfl)

/-- C6: the spec's concrete example — phone omitted, all services
succeeding — returns `{message: "送信が完了しました"}` with status 200, and the
webhook payload carries exactly the 4 records company / name / email /
message with no phone field. -/
theorem example_submission_result :
    (POST (some exampleBody) allOkEnv).response = successResponse ∧
    (POST (some exampleBody) allOkEnv).response.status = 200 ∧
    ((POST (some exampleBody) allOkEnv).webhookPayload.map
      (fun p => p.fields.map (fun f => (f.name, f.value)))) =
      some [("会社名", "Acme"), ("氏名", "田中太郎"),
        ("メールアドレス", "t@example.com"),
        ("お問い合わせ内容", "お見積りをお願いします")] ∧
    ((POST (some exampleBody) allOkEnv).webhookPayload.map
      (fun p => p.fields.length)) = some 4 ∧
    ((POST (some exampleBody) allOkEnv).webhookPayload.map
      (fun p => p.fields.any (fun f => f.name == "電話番号"))) = some false := by
  decide

/-- C7 counterexample: with a phone supplied, the phone record of the
webhook payload is tagged `inline: false`, not `inline: true` as the
claim states — no field named 電話番号 is inline. -/
theorem phone_field_not_inline :
    ((POST (some exampleBodyWithPhone) allOkEnv).webhookPayload.map
      (fun p => p.fields.map (fun f => (f.name, f.inline)))) =
      some [("会社名", true), ("氏名", true), ("メールアドレス", false),
        ("電話番号", false), ("お問い合わせ内容", false)] ∧
    ((POST (some exampleBodyWithPhone) allOkEnv).webhookPayload.map
      (fun p => p.fields.any (fun f => f.name == "電話番号" && f.inline))) =
      some false := by
  decide

/-- C7 (amended): whenever the handler builds a webhook payload, its field
list is ordered company, name, email, phone-if-truthy, message; the phone
record appears exactly once if and only if phone was supplied non-empty
and carries the supplied value; company and name are `inline: true`,
while email, phone (when present) and message are `inline: false`. -/
theorem webhook_field_list_shape (b : ContactFormData) (e : Env) (p : Embed)
    (h : (POST (some b) e).webhookPayload = some p) :
    p.fields.map (fun f => (f.name, f.inline)) =
      [("会社名", true), ("氏名", true), ("メールアドレス", false)]
        ++ (if truthy b.phone then [("電話番号", false)] else [])
        ++ [("お問い合わせ内容", false)] ∧
    (p.fields.filter (fun f => f.name == "電話番号")).map (fun f => f.value) =
      (if truthy b.phone then [b.phone.getD ""] else []) := by
  have hp : p = discordPayload b e.now := by
    unfold POST at h
    repeat' split at h
    all_goals first
    | exact Option.noConfusion h
    | simp_all
  subst hp
  unfold discordPayload
  by_cases hph : truthy b.phone <;> simp [hph]

/-- C7 witness: the phone-supplied example against the all-success
environment has the amended field-list shape. -/
theorem webhook_field_list_shape_witness :
    ((discordPayload exampleBodyWithPhone allOkEnv.now).fields.map
      (fun f => (f.name, f.inline)) =
      [("会社名", true), ("氏名", true), ("メールアドレス", false)]
        ++ (if truthy exampleBodyWithPhone.phone then [("電話番号", false)] else [])
        ++ [("お問い合わせ内容", false)]) ∧
    ((discordPayload exampleBodyWithPhone allOkEnv.now).fields.filter
        (fun f => f.name == "電話番号")).map (fun f => f.value) =
      (if truthy exampleBodyWithPhone.phone then
        [exampleBodyWithPhone.phone.getD ""] else []) :=
  webhook_field_list_shape exampleBodyWithPhone allOkEnv
    (discordPayload exampleBodyWithPhone allOkEnv.now) rfl

/-- C8: the response message is always one of five fixed constants, and
two runs whose environments differ only in secrets (verification secret,
webhook URL value, email API key) and diagnostic detail (verification
error codes, webhook response body, email error) produce identical
response bodies and status codes. -/
theorem response_fixed_and_secret_independent (b : Option ContactFormData)
    (e1 e2 : Env) (h : scrub e1 = scrub e2) :
    (POST b e1).response.message ∈ fixedMessages ∧
    (POST b e1).response = (POST b e2).response ∧
    (POST b e1).response.status = (POST b e2).response.status := by
  have he : POST b e1 = POST b e2 := by
    rw [← POST_env_scrub b e1, h, POST_env_scrub b e2]
  exact ⟨POST_message_mem b e1, by rw [he], by rw [he]⟩

/-- C8 witness: two environments differing in every secret and every
diagnostic detail give the example payload identical responses. -/
theorem response_fixed_and_secret_independent_witness :
    (POST (some exampleBody) secretsEnvA).response.message ∈ fixedMessages ∧
    (POST (some exampleBody) secretsEnvA).response =
      (POST (some exampleBody) secretsEnvB).response ∧
    (POST (some exampleBody) secretsEnvA).response.status =
      (POST (some exampleBody) secretsEnvB).response.status :=
  response_fixed_and_secret_independent (some exampleBody)
    secretsEnvA secretsEnvB (by decide)

/-- The handler never reads the HTTP status code carried by the Turnstile
verification response: replacing it changes nothing about the run. -/
theorem POST_status_irrelevant (b : Option ContactFormData) (e : Env) (s' : Nat) :
    POST b (withTurnstileStatus e s') = POST b e := by
  obtain ⟨cs, rk, wu, ts, wh, ee, n⟩ := e
  cases b with
  | none => rfl
  | some fb => rcases ts with _ | ⟨s, _ | td⟩ <;> rfl

/-- C10: on a valid payload whose verification response parsed to `td`,
the run is unchanged under any replacement of the verification response's
HTTP status (it is never inspected); the run is rejected with the 400
bot-verification response exactly when `td.success` is falsy, and the
pipeline only proceeds to the webhook call when `td.success` is truthy. -/
theorem turnstile_status_not_inspected (b : ContactFormData) (e : Env)
    (s s' : Nat) (td : TurnstileResponse)
    (hv : missingRequired b = false)
    (ht : e.turnstile = .responded s (some td)) :
    POST (some b) (withTurnstileStatus e s') = POST (some b) e ∧
    ((POST (some b) e).response = botFailedResponse ↔ td.success = false) ∧
    (Call.webhook ∈ (POST (some b) e).calls → td.success = true) := by
  obtain ⟨cs, rk, wu, ts, wh, ee, n⟩ := e
  change ts = TurnstileCall.responded s (some td) at ht
  subst ht
  refine ⟨POST_status_irrelevant _ _ s', ?_, ?_⟩ <;>
    by_cases hs : td.success <;>
    rcases wu with _ | u <;>
    rcases wh with _ | ⟨ok, _ | t⟩ <;>
    rcases ee with _ | err <;>
    first
    | (cases ok <;> simp_all [POST, hv, botFailedResponse, serverErrorResponse,
        sendFailedResponse, successResponse, missingFieldsResponse])
    | simp_all [POST, hv, botFailedResponse, serverErrorResponse,
        sendFailedResponse, successResponse, missingFieldsResponse]

/-- C10 witness: giving the successful Turnstile response of `allOkEnv`
an HTTP 500 status changes nothing, and the run proceeds to the webhook. -/
theorem turnstile_status_not_inspected_witness :
    POST (some exampleBody) (withTurnstileStatus allOkEnv 500) =
      POST (some exampleBody) allOkEnv ∧
    ((POST (some exampleBody) allOkEnv).response = botFailedResponse ↔
      (⟨true, none⟩ : TurnstileResponse).success = false) ∧
    (Call.webhook ∈ (POST (some exampleBody) allOkEnv).calls →
      (⟨true, none⟩ : TurnstileResponse).success = true) :=
  turnstile_status_not_inspected exampleBody allOkEnv 200 500 ⟨true, none⟩
    (by decide) rfl

end Funex
